import Mathlib

/-!
Verification of the MiniRTOS cooperative scheduler and ring-buffer queue
(src/minirtos.c, src/Examples/Nucleo_F401RE/Common/minirtos.h).

The C code is shallowly embedded: machine integers are modelled as Nat with
explicit reductions modulo the type width where the C arithmetic can wrap,
caller memory is modelled as explicit values (byte lists for the queue
buffer, a function from descriptor identifiers to task records for the task
list), and the unbounded while loops of the scheduler are modelled with
explicit fuel, returning none when the fuel runs out (the C loop would not
have terminated within that many steps).
-/

namespace MiniRTOS

/-- MAX_TASKS_NUMBER from minirtos.h. -/
def MAX_TASKS_NUMBER : Nat := 255

/-- MAX_TASK_INTERVAL from minirtos.h (one hour in milliseconds). -/
def MAX_TASK_INTERVAL : Nat := 3600000

/-- DEFAULT_TASK_INTERVAL from minirtos.h. -/
def DEFAULT_TASK_INTERVAL : Nat := 100

/-- MAX_NO_OF_QUEUE_ELEMENTS from minirtos.h. -/
def MAX_NO_OF_QUEUE_ELEMENTS : Nat := 20

/-- Modulus of the C type uint16_t. -/
def UINT16_MOD : Nat := 65536

/-- Modulus of the C type uint32_t. -/
def UINT32_MOD : Nat := 4294967296

/-- Modulus of the C type uintmax_t on the target (64 bits). -/
def UINT64_MOD : Nat := 18446744073709551616

/-!
## Queue (ring buffer)

Queue_Descriptor_t from minirtos.h.  The caller-supplied byte region that
the C descriptor points to is modelled by value as the field buffer (a list
of bytes); the uint16_t fields head, tail, count, elementSize, maxElements
are Nats kept below 65536 by the operations themselves, exactly as the C
arithmetic does.
-/

structure Queue_Descriptor_t where
  buffer : List Nat
  elementSize : Nat
  maxElements : Nat
  head : Nat
  tail : Nat
  count : Nat
deriving DecidableEq

/-- Model of memcpy(dst + idx, src, n) acting on a byte list dst: the n
bytes of dst starting at offset idx are replaced by the first n bytes of
src.  Faithful to the C call whenever idx + n is within dst and n within
src, which holds at every call site considered below. -/
def memcpy (dst : List Nat) (idx : Nat) (src : List Nat) (n : Nat) : List Nat :=
  dst.take idx ++ src.take n ++ dst.drop (idx + n)

/-- minirtos_Queue_Create from minirtos.c.  The NULL-pointer checks on the
descriptor and the buffer are not representable in the by-value model; the
remaining checks and the capacity clamp are translated verbatim.  Returns
none exactly when the C function returns false. -/
def minirtos_Queue_Create (buffer : List Nat) (elementSize maxElements : Nat) :
    Option Queue_Descriptor_t :=
  if elementSize = 0 ∨ maxElements = 0 then
    none
  else
    some { buffer := buffer
           elementSize := elementSize
           maxElements := if maxElements > MAX_NO_OF_QUEUE_ELEMENTS then
                            MAX_NO_OF_QUEUE_ELEMENTS
                          else maxElements
           head := 0
           tail := 0
           count := 0 }

/-- minirtos_Queue_Send from minirtos.c.  The write offset is
tail * elementSize truncated to uint16_t, exactly as the C assignment
to the uint16_t local idx does; tail + 1 and count + 1 cannot reach
65536 for queues produced by Create.  The critical-section macros only
mask interrupts and have no effect on the sequential state. -/
def minirtos_Queue_Send (q : Queue_Descriptor_t) (msg : List Nat) :
    Bool × Queue_Descriptor_t :=
  if q.count = q.maxElements then
    (false, q)
  else
    let idx := (q.tail * q.elementSize) % UINT16_MOD
    (true, { q with buffer := memcpy q.buffer idx msg q.elementSize
                    tail := (q.tail + 1) % q.maxElements
                    count := q.count + 1 })

/-- minirtos_Queue_Receive from minirtos.c.  dst is the caller destination
region (by value); on success its first elementSize bytes are overwritten
with the bytes read from the buffer at offset head * elementSize truncated
to uint16_t. -/
def minirtos_Queue_Receive (q : Queue_Descriptor_t) (dst : List Nat) :
    Bool × Queue_Descriptor_t × List Nat :=
  if q.count = 0 then
    (false, q, dst)
  else
    let idx := (q.head * q.elementSize) % UINT16_MOD
    (true,
     { q with head := (q.head + 1) % q.maxElements
              count := q.count - 1 },
     memcpy dst 0 (q.buffer.drop idx) q.elementSize)

/-- minirtos_Queue_Count from minirtos.c. -/
def minirtos_Queue_Count (q : Queue_Descriptor_t) : Nat :=
  q.count

/-- minirtos_Queue_Flush from minirtos.c. -/
def minirtos_Queue_Flush (q : Queue_Descriptor_t) : Queue_Descriptor_t :=
  { q with head := 0, tail := 0, count := 0 }

/-- One queue call in a send/receive sequence. -/
inductive QueueOp where
  | send (msg : List Nat)
  | recv
deriving DecidableEq

/-- Effect of one queue call on the descriptor state (the destination
region passed to a receive does not influence the descriptor). -/
def runOp (q : Queue_Descriptor_t) (op : QueueOp) : Queue_Descriptor_t :=
  match op with
  | .send m => (minirtos_Queue_Send q m).2
  | .recv => (minirtos_Queue_Receive q (List.replicate q.elementSize 0)).2.1

/-- Effect of a sequence of queue calls on the descriptor state. -/
def runOps (q : Queue_Descriptor_t) (ops : List QueueOp) : Queue_Descriptor_t :=
  ops.foldl runOp q

/-- Safety properties of a queue state, as stated by claim C2: the count is
within capacity, Send fails exactly on a full queue, a failed Send changes
no queue state, Receive fails exactly on an empty queue, and a failed
Receive leaves the caller destination region untouched. -/
def QueueSafe (q : Queue_Descriptor_t) : Prop :=
  q.count ≤ q.maxElements
  ∧ (∀ m, (minirtos_Queue_Send q m).1 = false ↔ q.count = q.maxElements)
  ∧ (∀ m, (minirtos_Queue_Send q m).1 = false → (minirtos_Queue_Send q m).2 = q)
  ∧ (∀ d, (minirtos_Queue_Receive q d).1 = false ↔ q.count = 0)
  ∧ (∀ d, (minirtos_Queue_Receive q d).1 = false → (minirtos_Queue_Receive q d).2.2 = d)

/-- Contiguous n-byte window of a byte list starting at offset a. -/
def slice (l : List Nat) (a n : Nat) : List Nat :=
  (l.drop a).take n

/-- Bytes of logical element slot i of a queue buffer (offset arithmetic
without the uint16_t truncation; the two agree whenever the offsets fit in
16 bits). -/
def slotAt (q : Queue_Descriptor_t) (i : Nat) : List Nat :=
  slice q.buffer (i * q.elementSize) q.elementSize

/-- Pending elements of a queue, oldest first: count many slots starting at
head, wrapping modulo maxElements. -/
def contents (q : Queue_Descriptor_t) : List (List Nat) :=
  (List.range q.count).map (fun i => slotAt q ((q.head + i) % q.maxElements))

/-- Well-formedness of a queue state: the buffer has exactly
elementSize * maxElements bytes, the indices are in range, tail is head
plus count modulo maxElements, and every slot offset fits in the 16-bit
index used by the code. -/
def QWF (q : Queue_Descriptor_t) : Prop :=
  q.buffer.length = q.elementSize * q.maxElements
  ∧ q.head < q.maxElements
  ∧ q.tail = (q.head + q.count) % q.maxElements
  ∧ q.count ≤ q.maxElements
  ∧ 0 < q.elementSize
  ∧ 0 < q.maxElements
  ∧ (q.maxElements - 1) * q.elementSize < UINT16_MOD

/-- Runs one Send per message, failing (none) as soon as a Send reports
failure. -/
def sendAll : Queue_Descriptor_t → List (List Nat) → Option Queue_Descriptor_t
  | q, [] => some q
  | q, m :: ms =>
    match minirtos_Queue_Send q m with
    | (true, q1) => sendAll q1 ms
    | (false, _) => none

/-- Runs n Receives, each into a fresh zeroed destination region of
elementSize bytes, collecting the delivered elements in order; fails (none)
as soon as a Receive reports failure. -/
def recvAll : Queue_Descriptor_t → Nat → Option (List (List Nat))
  | _, 0 => some []
  | q, n + 1 =>
    match minirtos_Queue_Receive q (List.replicate q.elementSize 0) with
    | (true, q1, out) => (recvAll q1 n).map (fun l => out :: l)
    | (false, _, _) => none

/-!
## Task scheduler

Task_Status_e, Task_Descriptor_t and the global scheduler state from
minirtos.h / minirtos.c.  Task records live in caller-owned storage; that
storage is modelled as a total map from descriptor identifiers (Nat, the
model of the descriptor pointers) to records.  The global variables
glbInitialized, glbNumberOfTasks, glbSysTicks, gptrTaskFirst and
gptrTaskSchedule form the SchedState structure; the two pointers are
Option Nat with none standing for NULL.
-/

inductive Task_Status_e where
  | TASK_PAUSE
  | TASK_SCHEDULED
  | TASK_ONE_SHOT
  | TASK_RUN_NOW
  | TASK_ONE_SHOT_NOW
  | TASK_RUNNING
  | TASK_NOT_FOUND
deriving DecidableEq

open Task_Status_e

/-- Numeric value of each enumerator, copied from minirtos.h (note the gap
at 4 and the sentinel at 0xFF). -/
def statusTag : Task_Status_e → Nat
  | TASK_PAUSE => 0
  | TASK_SCHEDULED => 1
  | TASK_ONE_SHOT => 2
  | TASK_RUN_NOW => 3
  | TASK_ONE_SHOT_NOW => 5
  | TASK_RUNNING => 6
  | TASK_NOT_FOUND => 255

/-- Task_Descriptor_t from minirtos.h.  gptrTaskNext holds the identifier
of the next record in the circular list (the code never stores NULL in this
field). -/
structure Task_Descriptor_t where
  taskPointer : Nat
  taskInterval : Nat
  plannedTask : Nat
  taskStatus : Task_Status_e
  gptrTaskNext : Nat
deriving DecidableEq

/-- Contents of a task record before the scheduler ever writes to it:
zero-initialized caller storage (a C static or global). -/
def defaultTask : Task_Descriptor_t :=
  { taskPointer := 0, taskInterval := 0, plannedTask := 0
    taskStatus := TASK_PAUSE, gptrTaskNext := 0 }

/-- The scheduler globals from minirtos.c together with the caller-owned
task records. -/
structure SchedState where
  initialized : Bool
  numberOfTasks : Nat
  sysTicks : Nat
  heap : Nat → Task_Descriptor_t
  first : Option Nat
  schedule : Option Nat

/-- Pointer write: replace the record stored at identifier id. -/
def hupd (h : Nat → Task_Descriptor_t) (id : Nat) (v : Task_Descriptor_t) :
    Nat → Task_Descriptor_t :=
  fun j => if j = id then v else h j

/-- Scheduler state at C program start: all globals zero / NULL, all caller
record storage zero-initialized. -/
def startState : SchedState :=
  { initialized := false, numberOfTasks := 0, sysTicks := 0
    heap := fun _ => defaultTask, first := none, schedule := none }

/-- minirtos_Init from minirtos.c.  Note that gptrTaskFirst is NOT reset
by the C function; only the flag, the tick counter, the task count and the
dispatch cursor are. -/
def minirtos_Init (st : SchedState) : SchedState :=
  { st with initialized := true, sysTicks := 0, numberOfTasks := 0, schedule := none }

/-- Model of the C loop `while (cur->gptrTaskNext != stop) cur = cur->gptrTaskNext`:
returns the first node reachable from cur whose gptrTaskNext equals stop,
or none when fuel runs out (the C loop would still be running). -/
def findTaskWithNext (heap : Nat → Task_Descriptor_t) (stop : Nat) :
    Nat → Nat → Option Nat
  | 0, _ => none
  | fuel + 1, cur =>
    if (heap cur).gptrTaskNext = stop then some cur
    else findTaskWithNext heap stop fuel ((heap cur).gptrTaskNext)

/-- Linking phase of minirtos_AddTask: when the list is non-empty, walk
from the dispatch cursor for the node whose gptrTaskNext is the head, point
it at the new record and close the circle back to the head; when the list
is empty the new record becomes head, cursor, and its own successor.
Returns none when the insertion walk does not terminate within fuel steps
or dereferences NULL (gptrTaskSchedule NULL with a non-empty list). -/
def addTaskLink (fuel : Nat) (st : SchedState) (id : Nat) : Option SchedState :=
  match st.first with
  | some f =>
    match st.schedule with
    | none => none
    | some cursor =>
      match findTaskWithNext st.heap f fuel cursor with
      | none => none
      | some last =>
        let h1 := hupd st.heap last { st.heap last with gptrTaskNext := id }
        some { st with heap := hupd h1 id { h1 id with gptrTaskNext := f } }
  | none =>
    some { st with
           first := some id
           schedule := some id
           heap := hupd st.heap id { st.heap id with gptrTaskNext := id } }

/-- minirtos_AddTask from minirtos.c, translated statement by statement.

The scratch `malloc` at function entry (and the matching `free` on the
failure paths) only leaks or frees heap scratch and never reaches the data
structure, so it has no effect on the modelled state.  The C guard on the
period also tests `taskInterval < 0`, which is always false for the
uint32_t argument, so only the upper bound is live.  On the
TASK_RUN_NOW / TASK_ONE_SHOT_NOW branch the C code stores only
plannedTask and leaves the taskStatus field of the record untouched. -/
def minirtos_AddTask (fuel : Nat) (st : SchedState) (ptrTaskDescriptor : Option Nat)
    (ptrUserTask : Option Nat) (taskInterval : Nat) (taskStatus : Task_Status_e) :
    Option (Bool × SchedState) :=
  if st.initialized = false ∨ st.numberOfTasks = MAX_TASKS_NUMBER ∨ ptrUserTask = none then
    some (false, st)
  else
    let interval := if MAX_TASK_INTERVAL < taskInterval then DEFAULT_TASK_INTERVAL
                    else taskInterval
    let status := match taskStatus with
      | TASK_NOT_FOUND => TASK_SCHEDULED
      | TASK_RUNNING => TASK_SCHEDULED
      | s => s
    match ptrTaskDescriptor with
    | none => some (false, st)
    | some id =>
      match addTaskLink fuel st id with
      | none => none
      | some st1 =>
        let h2 :=
          if status = TASK_RUN_NOW ∨ status = TASK_ONE_SHOT_NOW then
            hupd st1.heap id { st1.heap id with plannedTask := st1.sysTicks % UINT32_MOD }
          else
            let hA := hupd st1.heap id { st1.heap id with taskStatus := status }
            hupd hA id { hA id with
                         plannedTask := (st1.sysTicks + interval) % UINT32_MOD }
        let h3 := hupd h2 id { h2 id with taskInterval := interval }
        let h4 := hupd h3 id { h3 id with taskPointer := ptrUserTask.getD 0 }
        some (true, { st1 with heap := h4
                               numberOfTasks := (st1.numberOfTasks + 1) % 256 })

/-- minirtos_RemoveTask from minirtos.c, translated statement by statement.

The search walks from gptrTaskFirst for the node whose gptrTaskNext is the
target.  When that predecessor's gptrTaskNext equals gptrTaskFirst the code
only moves gptrTaskFirst to `pred->gptrTaskNext->gptrTaskNext`; otherwise
it redirects the predecessor around the target.  The final
`free(ptrNewTask)` frees the predecessor record, which is caller-owned
storage still linked into the circle (undefined behaviour in C); releasing
memory is outside the state modelled here, and the list effects above are
what the function performs on the modelled state.  The uint8_t task count
decrement wraps modulo 256.  Returns none when the walk runs out of fuel
or the list head is NULL (the C code would dereference NULL). -/
def minirtos_RemoveTask (fuel : Nat) (st : SchedState)
    (ptrUserTaskDescriptor : Option Nat) : Option (Bool × SchedState) :=
  if st.initialized = false ∨ st.numberOfTasks = MAX_TASKS_NUMBER ∨
      ptrUserTaskDescriptor = none then
    some (false, st)
  else
    match ptrUserTaskDescriptor, st.first with
    | some target, some f =>
      match findTaskWithNext st.heap target fuel f with
      | none => none
      | some pred =>
        let st1 :=
          if (st.heap pred).gptrTaskNext = f then
            { st with
              first := some ((st.heap ((st.heap pred).gptrTaskNext)).gptrTaskNext) }
          else
            { st with
              heap := hupd st.heap pred
                        { st.heap pred with
                          gptrTaskNext := (st.heap target).gptrTaskNext } }
        some (true, { st1 with numberOfTasks := (st1.numberOfTasks + 255) % 256 })
    | some _, none => none
    | none, _ => some (false, st)

/-- minirtos_PauseTask from minirtos.c. -/
def minirtos_PauseTask (st : SchedState) (ptr : Option Nat) : Bool × SchedState :=
  if st.initialized = false ∨ ptr = none then
    (false, st)
  else
    match ptr with
    | none => (false, st)
    | some id =>
      (true, { st with heap := hupd st.heap id { st.heap id with taskStatus := TASK_PAUSE } })

/-- minirtos_ResumeTask from minirtos.c. -/
def minirtos_ResumeTask (st : SchedState) (ptr : Option Nat) : Bool × SchedState :=
  if st.initialized = false ∨ ptr = none then
    (false, st)
  else
    match ptr with
    | none => (false, st)
    | some id =>
      let h1 := hupd st.heap id { st.heap id with taskStatus := TASK_SCHEDULED }
      let h2 := hupd h1 id
        { h1 id with plannedTask := (st.sysTicks + (h1 id).taskInterval) % UINT32_MOD }
      (true, { st with heap := h2 })

/-- minirtos_ModifyTask from minirtos.c.  The status guard is the C
comparison `taskStatus > TASK_ONE_SHOT_NOW` on the enum values; period and
status are stored without clamping, and plannedTask is recomputed for
TASK_SCHEDULED / TASK_ONE_SHOT and zeroed otherwise. -/
def minirtos_ModifyTask (st : SchedState) (ptr : Option Nat) (taskInterval : Nat)
    (taskStatus : Task_Status_e) : Bool × SchedState :=
  if st.initialized = false ∨ ptr = none then
    (false, st)
  else if statusTag TASK_ONE_SHOT_NOW < statusTag taskStatus then
    (false, st)
  else
    match ptr with
    | none => (false, st)
    | some id =>
      let h1 := hupd st.heap id { st.heap id with taskInterval := taskInterval }
      let h2 := hupd h1 id { h1 id with taskStatus := taskStatus }
      let h3 :=
        if taskStatus = TASK_SCHEDULED ∨ taskStatus = TASK_ONE_SHOT then
          hupd h2 id
            { h2 id with plannedTask := (st.sysTicks + taskInterval) % UINT32_MOD }
        else
          hupd h2 id { h2 id with plannedTask := 0 }
      (true, { st with heap := h3 })

/-- minirtos_GetTaskStatus from minirtos.c. -/
def minirtos_GetTaskStatus (st : SchedState) (ptr : Option Nat) : Task_Status_e :=
  if st.initialized = false ∨ ptr = none then
    TASK_NOT_FOUND
  else
    match ptr with
    | none => TASK_NOT_FOUND
    | some id => (st.heap id).taskStatus

/-- Conversion of a 64-bit unsigned value to intmax_t, as the ARM EABI
two-complement conversion performs it. -/
def toSigned64 (x : Nat) : Int :=
  if x % UINT64_MOD < UINT64_MOD / 2 then ((x % UINT64_MOD : Nat) : Int)
  else ((x % UINT64_MOD : Nat) : Int) - (UINT64_MOD : Int)

/-- The elapsed-time computation of minirtos_Scheduler:
`intmax_t elapsedTime = (gptrTaskSchedule->plannedTask - glbSysTicks)`.
The uint32_t field plannedTask is promoted to uintmax_t, the subtraction
wraps modulo two to the 64, and the result is converted to intmax_t. -/
def elapsedTime (plannedTask sysTicks : Nat) : Int :=
  toSigned64 ((plannedTask % UINT32_MOD + (UINT64_MOD - sysTicks % UINT64_MOD)) % UINT64_MOD)

/-- One iteration of the minirtos_Scheduler dispatch loop.  Returns the new
state and whether the callback of the current task was invoked during this
iteration.  The one-shot test of the C code is the bitwise test
`taskStatus & TASK_ONE_SHOT` on the enum values. -/
def schedulerStep (st : SchedState) : SchedState × Bool :=
  match st.schedule with
  | none => (st, false)
  | some cur =>
    if st.numberOfTasks = 0 then (st, false)
    else
      let t := st.heap cur
      let fired : Bool :=
        decide (statusTag TASK_PAUSE < statusTag t.taskStatus
                 ∧ elapsedTime t.plannedTask st.sysTicks ≤ 0)
      let rescheduled : Task_Descriptor_t :=
        { t with plannedTask := (st.sysTicks + t.taskInterval) % UINT32_MOD }
      let st1 :=
        if statusTag TASK_PAUSE < statusTag t.taskStatus then
          if elapsedTime t.plannedTask st.sysTicks ≤ 0 then
            if statusTag t.taskStatus &&& statusTag TASK_ONE_SHOT ≠ 0 then
              { st with heap := hupd st.heap cur { t with taskStatus := TASK_PAUSE } }
            else
              { st with heap := hupd st.heap cur rescheduled }
          else st
        else st
      ({ st1 with schedule := some ((st1.heap cur).gptrTaskNext) }, fired)

/-- Walks n steps along the gptrTaskNext links starting from cur. -/
def walkN (heap : Nat → Task_Descriptor_t) : Nat → Nat → Nat
  | 0, cur => cur
  | n + 1, cur => walkN heap n ((heap cur).gptrTaskNext)

/-!
## Concrete states used by witnesses and counterexamples
-/

/-- A queue of two one-byte elements, freshly created. -/
def c2q0 : Queue_Descriptor_t :=
  { buffer := [0, 0], elementSize := 1, maxElements := 2, head := 0, tail := 0, count := 0 }

/-- Freshly created queue with elementSize 32768 and capacity 3: slot 2
starts at byte offset 65536, which the uint16_t index truncates to 0. -/
def cxQ0 : Queue_Descriptor_t :=
  { buffer := List.replicate 98304 0, elementSize := 32768, maxElements := 3
    head := 0, tail := 0, count := 0 }

/-- cxQ0 after sending 32768 bytes of value 1. -/
def cxQ1 : Queue_Descriptor_t :=
  { buffer := List.replicate 32768 1 ++ List.replicate 65536 0
    elementSize := 32768, maxElements := 3, head := 0, tail := 1, count := 1 }

/-- cxQ1 after sending 32768 bytes of value 2. -/
def cxQ2 : Queue_Descriptor_t :=
  { buffer := List.replicate 32768 1 ++ (List.replicate 32768 2 ++ List.replicate 32768 0)
    elementSize := 32768, maxElements := 3, head := 0, tail := 2, count := 2 }

/-- cxQ2 after sending 32768 bytes of value 3: the truncated write offset
(2 * 32768) mod 65536 = 0 lands the third element on top of the first. -/
def cxQ3 : Queue_Descriptor_t :=
  { buffer := List.replicate 32768 3 ++ (List.replicate 32768 2 ++ List.replicate 32768 0)
    elementSize := 32768, maxElements := 3, head := 0, tail := 0, count := 3 }

/-- A queue of two one-byte elements holding one stored element (value 5
at slot 0), neither full nor empty. -/
def c10q : Queue_Descriptor_t :=
  { buffer := [5, 0], elementSize := 1, maxElements := 2, head := 0, tail := 1, count := 1 }

/-- Scheduler state right after minirtos_Init at program start. -/
def stInit : SchedState :=
  minirtos_Init startState

/-- stInit after the tick interrupt has advanced the counter to 7. -/
def stInit7 : SchedState :=
  { stInit with sysTicks := 7 }

/-- Helper extracting the resulting state from an Option result of AddTask
or RemoveTask, with a fallback for the none case. -/
def resState (r : Option (Bool × SchedState)) (fallback : SchedState) : SchedState :=
  (r.getD (false, fallback)).2

/-- State after AddTask(task 0, callback 1, period 50, TASK_SCHEDULED) from stInit. -/
def sA : SchedState :=
  resState (minirtos_AddTask 300 stInit (some 0) (some 1) 50 TASK_SCHEDULED) stInit

/-- sA after AddTask(task 1, callback 1, period 50, TASK_SCHEDULED). -/
def sAB : SchedState :=
  resState (minirtos_AddTask 300 sA (some 1) (some 1) 50 TASK_SCHEDULED) sA

/-- sAB after AddTask(task 2, callback 1, period 50, TASK_SCHEDULED). -/
def sABC : SchedState :=
  resState (minirtos_AddTask 300 sAB (some 2) (some 1) 50 TASK_SCHEDULED) sAB

/-- sAB after RemoveTask(task 0) — removal of the list head from a
two-element circle. -/
def sAB_rm0 : SchedState :=
  resState (minirtos_RemoveTask 300 sAB (some 0)) sAB

/-- sA after RemoveTask(task 0) — removal of the only task. -/
def sA_rm0 : SchedState :=
  resState (minirtos_RemoveTask 300 sA (some 0)) sA

/-- sABC after RemoveTask(task 0) — removal of the list head from a
three-element circle. -/
def sABC_rm0 : SchedState :=
  resState (minirtos_RemoveTask 300 sABC (some 0)) sABC

/-- stInit after AddTask(task 0, callback 1, period 0, TASK_SCHEDULED). -/
def c8s : SchedState :=
  resState (minirtos_AddTask 300 stInit (some 0) (some 1) 0 TASK_SCHEDULED) stInit

/-- A single registered TASK_ONE_SHOT_NOW task, due at tick 0 with period
10, forming a one-element circle at the dispatch cursor. -/
def c1st : SchedState :=
  { initialized := true, numberOfTasks := 1, sysTicks := 0
    heap := hupd (fun _ => defaultTask) 0
      { taskPointer := 1, taskInterval := 10, plannedTask := 0
        taskStatus := TASK_ONE_SHOT_NOW, gptrTaskNext := 0 }
    first := some 0, schedule := some 0 }

/-- Same single-task state with status TASK_RUN_NOW. -/
def c1stR : SchedState :=
  { initialized := true, numberOfTasks := 1, sysTicks := 0
    heap := hupd (fun _ => defaultTask) 0
      { taskPointer := 1, taskInterval := 10, plannedTask := 0
        taskStatus := TASK_RUN_NOW, gptrTaskNext := 0 }
    first := some 0, schedule := some 0 }

/-- Initialized scheduler state at tick 3 used to witness ModifyTask. -/
def c9st : SchedState :=
  { stInit with sysTicks := 3 }

lemma runOp_maxElements (q : Queue_Descriptor_t) (op : QueueOp) :
    (runOp q op).maxElements = q.maxElements := by
  cases op <;> simp only [runOp, minirtos_Queue_Send, minirtos_Queue_Receive] <;> split <;> rfl

lemma runOp_count_le (q : Queue_Descriptor_t) (op : QueueOp)
    (h : q.count ≤ q.maxElements) : (runOp q op).count ≤ (runOp q op).maxElements := by
  cases op with
  | send m =>
    simp only [runOp, minirtos_Queue_Send]
    split
    · exact h
    · next hfull => simpa using Nat.lt_of_le_of_ne h hfull
  | recv =>
    simp only [runOp, minirtos_Queue_Receive]
    split
    · exact h
    · simpa using Nat.le_trans (Nat.sub_le _ _) h

lemma runOps_count_le (q : Queue_Descriptor_t) (ops : List QueueOp)
    (h : q.count ≤ q.maxElements) : (runOps q ops).count ≤ (runOps q ops).maxElements := by
  induction ops generalizing q with
  | nil => exact h
  | cons op ops ih =>
    simpa [runOps, List.foldl_cons] using ih (runOp q op) (runOp_count_le q op h)

lemma send_fail_iff (q : Queue_Descriptor_t) (m : List Nat) :
    (minirtos_Queue_Send q m).1 = false ↔ q.count = q.maxElements := by
  simp only [minirtos_Queue_Send]
  split <;> simp_all

lemma send_fail_frame (q : Queue_Descriptor_t) (m : List Nat)
    (h : (minirtos_Queue_Send q m).1 = false) : (minirtos_Queue_Send q m).2 = q := by
  simp only [minirtos_Queue_Send] at h ⊢
  split at h <;> simp_all

lemma recv_fail_iff (q : Queue_Descriptor_t) (d : List Nat) :
    (minirtos_Queue_Receive q d).1 = false ↔ q.count = 0 := by
  simp only [minirtos_Queue_Receive]
  split <;> simp_all

lemma recv_fail_dst (q : Queue_Descriptor_t) (d : List Nat)
    (h : (minirtos_Queue_Receive q d).1 = false) : (minirtos_Queue_Receive q d).2.2 = d := by
  simp only [minirtos_Queue_Receive] at h ⊢
  split at h <;> simp_all

lemma create_count_zero (buf : List Nat) (es cap : Nat) (q0 : Queue_Descriptor_t)
    (hc : minirtos_Queue_Create buf es cap = some q0) : q0.count = 0 := by
  simp only [minirtos_Queue_Create] at hc
  split at hc
  · exact absurd hc (by simp)
  · cases hc
    rfl

/-- Claim C2: for every queue after a successful Create and every sequence
of Send and Receive calls, the count stays within 0 and the capacity (the
lower bound is the Nat type itself, matching the uint16_t field), Send
fails exactly when count equals the capacity, a failed Send mutates no
queue state, Receive fails exactly when count is 0, and a failed Receive
leaves the caller destination region unmodified. -/
theorem C2_queue_send_receive_safety (buf : List Nat) (es cap : Nat)
    (q0 : Queue_Descriptor_t) (hc : minirtos_Queue_Create buf es cap = some q0)
    (ops : List QueueOp) : QueueSafe (runOps q0 ops) := by
  unfold QueueSafe
  refine ⟨?_, fun m => send_fail_iff _ m, fun m => send_fail_frame _ m,
          fun d => recv_fail_iff _ d, fun d => recv_fail_dst _ d⟩
  exact runOps_count_le q0 ops (by rw [create_count_zero buf es cap q0 hc]; exact Nat.zero_le _)

/-- Witness for C2 at a concrete freshly created queue and a concrete call
sequence. -/
theorem C2_queue_send_receive_safety_witness :
    QueueSafe (runOps c2q0 [QueueOp.send [7], QueueOp.recv]) :=
  C2_queue_send_receive_safety [0, 0] 1 2 c2q0 rfl [QueueOp.send [7], QueueOp.recv]

/-- Claim C1 (code bug, evaluated at the failing input): with the single
due task of c1st in state TASK_ONE_SHOT_NOW, one dispatch iteration invokes
the callback but does NOT pause the task — the C test
`taskStatus & TASK_ONE_SHOT` is 5 & 2 = 0 — it instead reschedules it to
now + period and the task fires again once that period elapses; and a due
TASK_RUN_NOW task (c1stR, 3 & 2 = 2) is paused after one firing instead of
being rescheduled. -/
theorem C1_oneshot_dispatch_code_bug :
    (schedulerStep c1st).2 = true
    ∧ ((schedulerStep c1st).1.heap 0).taskStatus = TASK_ONE_SHOT_NOW
    ∧ TASK_ONE_SHOT_NOW ≠ TASK_PAUSE
    ∧ ((schedulerStep c1st).1.heap 0).plannedTask = 10
    ∧ (schedulerStep { (schedulerStep c1st).1 with sysTicks := 10 }).2 = true
    ∧ (schedulerStep c1stR).2 = true
    ∧ ((schedulerStep c1stR).1.heap 0).taskStatus = TASK_PAUSE := by
  decide

/-- Claim C5 (code bug, evaluated at the failing input): a successful
AddTask with requested state TASK_RUN_NOW at tick 7 sets due_at to the
current tick, but leaves the taskStatus field of the record at its prior
(zero-initialized) value TASK_PAUSE instead of storing the requested
state: the TASK_RUN_NOW / TASK_ONE_SHOT_NOW branch of minirtos_AddTask
never writes taskStatus. -/
theorem C5_addtask_runnow_state_code_bug :
    (minirtos_AddTask 300 stInit7 (some 0) (some 1) 50 TASK_RUN_NOW).map Prod.fst = some true
    ∧ ((resState (minirtos_AddTask 300 stInit7 (some 0) (some 1) 50 TASK_RUN_NOW)
          stInit7).heap 0).plannedTask = 7
    ∧ ((resState (minirtos_AddTask 300 stInit7 (some 0) (some 1) 50 TASK_RUN_NOW)
          stInit7).heap 0).taskStatus = TASK_PAUSE
    ∧ TASK_PAUSE ≠ TASK_RUN_NOW := by
  decide

/-- Claim C6 (code bug, evaluated at the failing input): after the
successful sequence Add task 0, Add task 1, Remove task 0, the task count
is 1 and the head is task 1, but walking one gptrTaskNext step from the
head reaches task 0 (the node that was supposedly removed) instead of
returning to the head: the circle invariant is broken because head removal
never redirects the predecessor link. -/
theorem C6_circularity_code_bug :
    (minirtos_AddTask 300 stInit (some 0) (some 1) 50 TASK_SCHEDULED).map Prod.fst = some true
    ∧ (minirtos_AddTask 300 sA (some 1) (some 1) 50 TASK_SCHEDULED).map Prod.fst = some true
    ∧ (minirtos_RemoveTask 300 sAB (some 0)).map Prod.fst = some true
    ∧ sAB_rm0.numberOfTasks = 1
    ∧ sAB_rm0.first = some 1
    ∧ walkN sAB_rm0.heap 1 1 ≠ 1 := by
  decide

/-- Claim C7 (code bug, evaluated at the failing inputs): removing the only
task (from sA) decrements the count but leaves the head at the removed
record instead of emptying the list, and removing the head of the
three-task circle of sABC moves the head to task 1 but leaves the
predecessor (task 2) still linked to the removed task 0, so the target is
never unlinked. -/
theorem C7_remove_unlink_code_bug :
    (minirtos_RemoveTask 300 sA (some 0)).map Prod.fst = some true
    ∧ sA_rm0.numberOfTasks = 0
    ∧ sA_rm0.first = some 0
    ∧ some 0 ≠ (none : Option Nat)
    ∧ (minirtos_RemoveTask 300 sABC (some 0)).map Prod.fst = some true
    ∧ sABC_rm0.first = some 1
    ∧ (sABC_rm0.heap 2).gptrTaskNext = 0
    ∧ (sABC_rm0.heap 2).gptrTaskNext ≠ 1 := by
  decide

/-- Counterexample to claim C8: AddTask with period 0 (outside the range
[1, 3600000] named by the claim) succeeds and stores period 0, not the
default 100: the lower-bound test of the C guard is `taskInterval < 0` on
a uint32_t, which never fires. -/
theorem C8_period_zero_counterexample :
    (minirtos_AddTask 300 stInit (some 0) (some 1) 0 TASK_SCHEDULED).map Prod.fst = some true
    ∧ (c8s.heap 0).taskInterval = 0
    ∧ (0 : Nat) ≠ DEFAULT_TASK_INTERVAL := by
  decide

/-- Claim C8 as amended: the period requested in an AddTask call never
influences whether the call succeeds, and a successful call stores the
default period 100 exactly when the requested period exceeds 3600000 —
a requested period of 0 is stored unchanged, because the lower-bound test
of the C guard compares the unsigned period with 0 and never fires. -/
theorem C8_period_clamp_amended (fuel : Nat) (st : SchedState) (id : Nat)
    (cb : Option Nat) (i j : Nat) (s : Task_Status_e) :
    ((minirtos_AddTask fuel st (some id) cb i s).map Prod.fst
      = (minirtos_AddTask fuel st (some id) cb j s).map Prod.fst)
    ∧ (∀ st', minirtos_AddTask fuel st (some id) cb i s = some (true, st') →
        (st'.heap id).taskInterval
          = if MAX_TASK_INTERVAL < i then DEFAULT_TASK_INTERVAL else i) := by
  constructor
  · by_cases h1 : st.initialized = false ∨ st.numberOfTasks = MAX_TASKS_NUMBER ∨ cb = none
    · simp [minirtos_AddTask, h1]
    · simp only [minirtos_AddTask, if_neg h1]
      cases hL : addTaskLink fuel st id with
      | none => simp [hL]
      | some st1 => simp [hL]
  · intro st' h
    by_cases h1 : st.initialized = false ∨ st.numberOfTasks = MAX_TASKS_NUMBER ∨ cb = none
    · simp [minirtos_AddTask, h1] at h
    · simp only [minirtos_AddTask, if_neg h1] at h
      cases hL : addTaskLink fuel st id with
      | none => rw [hL] at h; exact absurd h (by simp)
      | some st1 =>
        rw [hL] at h
        simp only [Option.some.injEq, Prod.mk.injEq] at h
        rw [← h.2]
        simp [hupd]

/-- Witness for the amended claim C8 at the concrete call of the
counterexample: period 0, stored unchanged. -/
theorem C8_period_clamp_amended_witness :
    (c8s.heap 0).taskInterval
      = if MAX_TASK_INTERVAL < 0 then DEFAULT_TASK_INTERVAL else 0 :=
  (C8_period_clamp_amended 300 stInit 0 (some 1) 0 0 TASK_SCHEDULED).2 c8s rfl

/-- Claim C9: ModifyTask fails exactly when the scheduler is not
initialized, the reference is absent, or the requested state lies outside
the valid requestable range (the enum values above TASK_ONE_SHOT_NOW,
namely the sentinels TASK_RUNNING and TASK_NOT_FOUND); on success the
period and state are stored without clamping, and due_at becomes
now + period on uint32_t for TASK_SCHEDULED and TASK_ONE_SHOT and 0 for
every other accepted state. -/
theorem C9_modify_task (st : SchedState) (ptr : Option Nat) (i : Nat)
    (s : Task_Status_e) :
    ((minirtos_ModifyTask st ptr i s).1 = false
      ↔ (st.initialized = false ∨ ptr = none ∨ s = TASK_RUNNING ∨ s = TASK_NOT_FOUND))
    ∧ (∀ id, ptr = some id → (minirtos_ModifyTask st ptr i s).1 = true →
        ((minirtos_ModifyTask st ptr i s).2.heap id).taskInterval = i
        ∧ ((minirtos_ModifyTask st ptr i s).2.heap id).taskStatus = s
        ∧ ((minirtos_ModifyTask st ptr i s).2.heap id).plannedTask
            = (if s = TASK_SCHEDULED ∨ s = TASK_ONE_SHOT
               then (st.sysTicks + i) % UINT32_MOD else 0)) := by
  constructor
  · cases hinit : st.initialized <;> cases ptr <;> cases s <;>
      simp [minirtos_ModifyTask, statusTag, hinit]
  · intro id hid htrue
    subst hid
    cases hinit : st.initialized with
    | false => simp [minirtos_ModifyTask, hinit] at htrue
    | true =>
      cases s <;>
        simp_all [minirtos_ModifyTask, statusTag, hupd, hinit]

/-- Witness for C9 at a concrete initialized state, reference and state. -/
theorem C9_modify_task_witness :
    ((minirtos_ModifyTask c9st (some 0) 5 TASK_SCHEDULED).2.heap 0).taskInterval = 5
    ∧ ((minirtos_ModifyTask c9st (some 0) 5 TASK_SCHEDULED).2.heap 0).taskStatus
        = TASK_SCHEDULED
    ∧ ((minirtos_ModifyTask c9st (some 0) 5 TASK_SCHEDULED).2.heap 0).plannedTask
        = (if TASK_SCHEDULED = TASK_SCHEDULED ∨ TASK_SCHEDULED = TASK_ONE_SHOT
           then (c9st.sysTicks + 5) % UINT32_MOD else 0) :=
  (C9_modify_task c9st (some 0) 5 TASK_SCHEDULED).2 0 rfl (by decide)

/-- Claim C4 as amended: a task whose due_at was computed before the
64-bit tick counter wraps AND whose due moment falls at or past the wrap
(registration tick reg with reg + interval reaching 2 to the 64, due_at
stored as the uint32_t truncation of reg + interval) is still judged due
by the signed-difference test at every counter value from the wrapped due
moment up to half the counter range later — in particular immediately
after the wrap.  (The proviso on the due moment is needed: see the
counterexample for a task already due strictly before the wrap.) -/
theorem C4_tick_overflow_due (reg interval now : Nat)
    (h1 : reg < UINT64_MOD) (h2 : UINT64_MOD ≤ reg + interval)
    (h3 : interval < UINT32_MOD)
    (h4 : reg + interval - UINT64_MOD ≤ now)
    (h5 : now < reg + interval - UINT64_MOD + UINT64_MOD / 2) :
    elapsedTime ((reg + interval) % UINT32_MOD) now ≤ 0 := by
  unfold elapsedTime toSigned64
  simp only [UINT32_MOD, UINT64_MOD] at *
  split <;> omega

/-- Witness for C4: a task registered 5 ticks before the counter wraps
with period 10 is judged due at counter value 6 (one tick past the wrapped
due moment 5). -/
theorem C4_tick_overflow_due_witness :
    elapsedTime ((18446744073709551611 + 10) % UINT32_MOD) 6 ≤ 0 :=
  C4_tick_overflow_due 18446744073709551611 10 6
    (by norm_num [UINT64_MOD]) (by norm_num [UINT64_MOD])
    (by norm_num [UINT32_MOD]) (by norm_num [UINT64_MOD])
    (by norm_num [UINT64_MOD])

/-- Counterexample to claim C4 as universally stated: a task registered at
tick 2 to the 64 minus 51 with period 50 has its due_at computed before the
counter wraps and becomes due at tick 2 to the 64 minus 1, one tick before
the wrap.  Checked at counter value 3 — immediately after the wrap, four
ticks past its due moment — the elapsed-time test returns the POSITIVE
value 4294967292, judging the overdue task not due: the uint32_t due_at
field and the 64-bit counter wrap at different widths, so the
signed-difference trick fails for a task still pending across the wrap. -/
theorem C4_tick_overflow_counterexample :
    (18446744073709551565 : Nat) < UINT64_MOD
    ∧ (18446744073709551565 : Nat) + 50 < UINT64_MOD
    ∧ 0 < elapsedTime ((18446744073709551565 + 50) % UINT32_MOD) 3 := by
  refine ⟨by norm_num [UINT64_MOD], by norm_num [UINT64_MOD], ?_⟩
  norm_num [elapsedTime, toSigned64, UINT32_MOD, UINT64_MOD]

/-!
## Byte-level lemmas about memcpy and buffer slices
-/

lemma length_memcpy (dst src : List Nat) (idx n : Nat)
    (h1 : idx + n ≤ dst.length) (h2 : n ≤ src.length) :
    (memcpy dst idx src n).length = dst.length := by
  simp [memcpy]
  omega

lemma getElem?_memcpy (dst src : List Nat) (idx n k : Nat)
    (h1 : idx + n ≤ dst.length) (h2 : n ≤ src.length) :
    (memcpy dst idx src n)[k]? =
      if idx ≤ k ∧ k < idx + n then src[k - idx]? else dst[k]? := by
  have hti : (dst.take idx).length = idx := by simp; omega
  have hsn : (src.take n).length = n := by simp; omega
  have h12 : (dst.take idx ++ src.take n).length = idx + n := by
    rw [List.length_append, hti, hsn]
  unfold memcpy
  by_cases hk2 : k < idx + n
  · rw [List.getElem?_append_left (by rw [h12]; exact hk2)]
    by_cases hk1 : k < idx
    · rw [List.getElem?_append_left (by rw [hti]; exact hk1), List.getElem?_take,
          if_pos hk1, if_neg (by omega)]
    · rw [List.getElem?_append_right (by rw [hti]; omega), hti, List.getElem?_take,
          if_pos (by omega), if_pos (by omega)]
  · rw [List.getElem?_append_right (by rw [h12]; omega), h12,
        List.getElem?_drop, if_neg (by omega)]
    congr 1
    omega

lemma getElem?_slice (l : List Nat) (a n k : Nat) :
    (slice l a n)[k]? = if k < n then l[a + k]? else none := by
  unfold slice
  rw [List.getElem?_take]
  split
  · rw [List.getElem?_drop]
  · rfl

lemma slice_memcpy_self (dst src : List Nat) (idx n : Nat)
    (h1 : idx + n ≤ dst.length) (h2 : src.length = n) :
    slice (memcpy dst idx src n) idx n = src := by
  apply List.ext_getElem?
  intro k
  rw [getElem?_slice]
  by_cases hk : k < n
  · rw [if_pos hk, getElem?_memcpy dst src idx n (idx + k) h1 (by omega),
        if_pos (by omega)]
    congr 1
    omega
  · rw [if_neg hk]
    exact (List.getElem?_eq_none (by omega)).symm

lemma slice_memcpy_disjoint (dst src : List Nat) (idx n a m : Nat)
    (h1 : idx + n ≤ dst.length) (h2 : n ≤ src.length)
    (hd : a + m ≤ idx ∨ idx + n ≤ a) :
    slice (memcpy dst idx src n) a m = slice dst a m := by
  apply List.ext_getElem?
  intro k
  rw [getElem?_slice, getElem?_slice]
  by_cases hk : k < m
  · rw [if_pos hk, if_pos hk, getElem?_memcpy dst src idx n (a + k) h1 h2,
        if_neg (by omega)]
  · rw [if_neg hk, if_neg hk]

lemma add_mod_ne (h : Nat) {i c m : Nat} (hic : i < c) (hcm : c < m) :
    (h + i) % m ≠ (h + c) % m := by
  intro heq
  have h3 : i ≡ c [MOD m] := Nat.ModEq.add_left_cancel' h heq
  have h4 : m ∣ c - i := (Nat.modEq_iff_dvd' (Nat.le_of_lt hic)).1 h3
  have h5 : m ≤ c - i := Nat.le_of_dvd (by omega) h4
  omega

lemma contents_length (q : Queue_Descriptor_t) : (contents q).length = q.count := by
  simp [contents]

lemma slots_disjoint {j t es : Nat} (hne : j ≠ t) :
    j * es + es ≤ t * es ∨ t * es + es ≤ j * es := by
  rcases Nat.lt_or_ge j t with hlt | hge
  · left
    have := Nat.mul_le_mul_right es (Nat.succ_le_of_lt hlt)
    rwa [Nat.succ_mul] at this
  · right
    have hlt : t < j := Nat.lt_of_le_of_ne hge (fun e => hne e.symm)
    have := Nat.mul_le_mul_right es (Nat.succ_le_of_lt hlt)
    rwa [Nat.succ_mul] at this

lemma slot_offset_lt {i maxE es : Nat} (hi : i < maxE)
    (hidx : (maxE - 1) * es < UINT16_MOD) :
    i * es % UINT16_MOD = i * es := by
  apply Nat.mod_eq_of_lt
  exact Nat.lt_of_le_of_lt (Nat.mul_le_mul_right es (by omega)) hidx

lemma slot_offset_bound {i maxE es len : Nat} (hi : i < maxE)
    (hlen : len = es * maxE) : i * es + es ≤ len := by
  have h2 : (i + 1) * es ≤ maxE * es :=
    Nat.mul_le_mul_right es (Nat.succ_le_of_lt hi)
  rw [Nat.succ_mul, Nat.mul_comm maxE es] at h2
  omega

lemma send_success_eq (q : Queue_Descriptor_t) (m : List Nat)
    (h : q.count ≠ q.maxElements) :
    minirtos_Queue_Send q m =
      (true, { q with
               buffer := memcpy q.buffer (q.tail * q.elementSize % UINT16_MOD) m q.elementSize
               tail := (q.tail + 1) % q.maxElements
               count := q.count + 1 }) := by
  simp [minirtos_Queue_Send, h]

lemma recv_success_eq (q : Queue_Descriptor_t) (d : List Nat) (h : q.count ≠ 0) :
    minirtos_Queue_Receive q d =
      (true,
       { q with head := (q.head + 1) % q.maxElements, count := q.count - 1 },
       memcpy d 0 (q.buffer.drop (q.head * q.elementSize % UINT16_MOD)) q.elementSize) := by
  simp [minirtos_Queue_Receive, h]

lemma send_spec (q : Queue_Descriptor_t) (m : List Nat) (hwf : QWF q)
    (hcount : q.count < q.maxElements) (hm : m.length = q.elementSize) :
    (minirtos_Queue_Send q m).1 = true
    ∧ QWF (minirtos_Queue_Send q m).2
    ∧ contents (minirtos_Queue_Send q m).2 = contents q ++ [m]
    ∧ (minirtos_Queue_Send q m).2.elementSize = q.elementSize
    ∧ (minirtos_Queue_Send q m).2.maxElements = q.maxElements
    ∧ (minirtos_Queue_Send q m).2.count = q.count + 1 := by
  obtain ⟨hlen, hhead, htail, hcle, hes, hmax, hidx⟩ := hwf
  have hne : q.count ≠ q.maxElements := Nat.ne_of_lt hcount
  have htl : q.tail < q.maxElements := by rw [htail]; exact Nat.mod_lt _ hmax
  have hoff : q.tail * q.elementSize % UINT16_MOD = q.tail * q.elementSize :=
    slot_offset_lt htl hidx
  have hbound : q.tail * q.elementSize + q.elementSize ≤ q.buffer.length :=
    slot_offset_bound htl hlen
  have hsrc : q.elementSize ≤ m.length := Nat.le_of_eq hm.symm
  rw [send_success_eq q m hne, hoff]
  refine ⟨rfl, ⟨?_, hhead, ?_, ?_, hes, hmax, hidx⟩, ?_, rfl, rfl, rfl⟩
  · show (memcpy q.buffer (q.tail * q.elementSize) m q.elementSize).length
      = q.elementSize * q.maxElements
    rw [length_memcpy _ _ _ _ hbound hsrc, hlen]
  · show (q.tail + 1) % q.maxElements = (q.head + (q.count + 1)) % q.maxElements
    rw [htail, Nat.mod_add_mod, Nat.add_assoc]
  · show q.count + 1 ≤ q.maxElements
    omega
  · show contents _ = contents q ++ [m]
    unfold contents
    simp only [List.range_succ, List.map_append, List.map_cons, List.map_nil]
    congr 1
    · apply List.map_congr_left
      intro i hi
      have hic : i < q.count := List.mem_range.1 hi
      have hj : (q.head + i) % q.maxElements < q.maxElements := Nat.mod_lt _ hmax
      have hjne : (q.head + i) % q.maxElements ≠ q.tail := by
        rw [htail]
        exact add_mod_ne q.head hic hcount
      show slice (memcpy q.buffer (q.tail * q.elementSize) m q.elementSize)
          ((q.head + i) % q.maxElements * q.elementSize) q.elementSize
        = slotAt q ((q.head + i) % q.maxElements)
      rw [slice_memcpy_disjoint _ _ _ _ _ _ hbound hsrc (slots_disjoint hjne)]
      rfl
    · show [slice (memcpy q.buffer (q.tail * q.elementSize) m q.elementSize)
             ((q.head + q.count) % q.maxElements * q.elementSize) q.elementSize] = [m]
      rw [← htail, slice_memcpy_self _ _ _ _ hbound hm]

lemma recv_spec (q : Queue_Descriptor_t) (hwf : QWF q) (hcount : 0 < q.count) :
    (minirtos_Queue_Receive q (List.replicate q.elementSize 0)).1 = true
    ∧ QWF (minirtos_Queue_Receive q (List.replicate q.elementSize 0)).2.1
    ∧ (minirtos_Queue_Receive q (List.replicate q.elementSize 0)).2.2 = slotAt q q.head
    ∧ contents q = slotAt q q.head
        :: contents (minirtos_Queue_Receive q (List.replicate q.elementSize 0)).2.1
    ∧ (minirtos_Queue_Receive q (List.replicate q.elementSize 0)).2.1.elementSize
        = q.elementSize
    ∧ (minirtos_Queue_Receive q (List.replicate q.elementSize 0)).2.1.count
        = q.count - 1 := by
  obtain ⟨hlen, hhead, htail, hcle, hes, hmax, hidx⟩ := hwf
  have hne : q.count ≠ 0 := by omega
  have hoff : q.head * q.elementSize % UINT16_MOD = q.head * q.elementSize :=
    slot_offset_lt hhead hidx
  rw [recv_success_eq _ _ hne, hoff]
  refine ⟨rfl, ⟨hlen, ?_, ?_, ?_, hes, hmax, hidx⟩, ?_, ?_, rfl, rfl⟩
  · show (q.head + 1) % q.maxElements < q.maxElements
    exact Nat.mod_lt _ hmax
  · show q.tail = ((q.head + 1) % q.maxElements + (q.count - 1)) % q.maxElements
    rw [htail, Nat.mod_add_mod]
    congr 1
    omega
  · show q.count - 1 ≤ q.maxElements
    omega
  · show memcpy (List.replicate q.elementSize 0) 0
        (q.buffer.drop (q.head * q.elementSize)) q.elementSize = slotAt q q.head
    simp [memcpy, slotAt, slice]
  · show contents q = slotAt q q.head :: contents _
    have hc : q.count = (q.count - 1) + 1 := by omega
    unfold contents
    conv_lhs => rw [hc]
    rw [List.range_succ_eq_map, List.map_cons, List.map_map]
    congr 1
    · show slotAt q ((q.head + 0) % q.maxElements) = slotAt q q.head
      rw [Nat.add_zero, Nat.mod_eq_of_lt hhead]
    · apply List.map_congr_left
      intro i hi
      have hidxeq : ((q.head + 1) % q.maxElements + i) % q.maxElements
          = (q.head + (i + 1)) % q.maxElements := by
        rw [Nat.mod_add_mod]
        congr 1
        omega
      simp only [Function.comp_apply, slotAt, slice, hidxeq]

lemma sendAll_spec (msgs : List (List Nat)) : ∀ (q : Queue_Descriptor_t), QWF q →
    (∀ m ∈ msgs, m.length = q.elementSize) →
    q.count + msgs.length ≤ q.maxElements →
    ∃ q1, sendAll q msgs = some q1 ∧ QWF q1
      ∧ contents q1 = contents q ++ msgs
      ∧ q1.elementSize = q.elementSize := by
  induction msgs with
  | nil =>
    intro q hwf _ _
    exact ⟨q, rfl, hwf, by simp, rfl⟩
  | cons m ms ih =>
    intro q hwf hlens hcap
    have hcount : q.count < q.maxElements := by
      simp only [List.length_cons] at hcap
      omega
    obtain ⟨hfst, hwf1, hcont1, hes1, hmax1, hcnt1⟩ :=
      send_spec q m hwf hcount (hlens m (by simp))
    have hpair : minirtos_Queue_Send q m = (true, (minirtos_Queue_Send q m).2) := by
      rw [← hfst]
    obtain ⟨q1, hall, hwfq1, hcontq1, hesq1⟩ :=
      ih (minirtos_Queue_Send q m).2 hwf1
        (fun x hx => by rw [hes1]; exact hlens x (by simp [hx]))
        (by rw [hcnt1, hmax1]; simp only [List.length_cons] at hcap; omega)
    refine ⟨q1, ?_, hwfq1, ?_, ?_⟩
    · rw [sendAll, hpair]
      exact hall
    · rw [hcontq1, hcont1, List.append_assoc]
      rfl
    · rw [hesq1, hes1]

lemma recvAll_succ (q : Queue_Descriptor_t) (n : Nat) :
    recvAll q (n + 1)
      = if (minirtos_Queue_Receive q (List.replicate q.elementSize 0)).1 = true then
          (recvAll (minirtos_Queue_Receive q (List.replicate q.elementSize 0)).2.1 n).map
            (fun l => (minirtos_Queue_Receive q (List.replicate q.elementSize 0)).2.2 :: l)
        else none := by
  rcases hr : minirtos_Queue_Receive q (List.replicate q.elementSize 0) with ⟨b, q1, out⟩
  cases b <;> simp [recvAll, hr]

lemma recvAll_spec (l : List (List Nat)) : ∀ (q : Queue_Descriptor_t), QWF q →
    contents q = l → recvAll q l.length = some l := by
  induction l with
  | nil =>
    intro q _ _
    rfl
  | cons x xs ih =>
    intro q hwf hc
    have hcount : 0 < q.count := by
      have hl := contents_length q
      rw [hc] at hl
      simp at hl
      omega
    obtain ⟨hfst, hwf2, hout, hdecomp, hes2, hcnt2⟩ := recv_spec q hwf hcount
    rw [hc] at hdecomp
    injection hdecomp with hx1 hx2
    rw [List.length_cons, recvAll_succ, if_pos hfst, ih _ hwf2 hx2.symm]
    simp [hout, ← hx1]

lemma create_spec (buf : List Nat) (es cap : Nat) (q0 : Queue_Descriptor_t)
    (hc : minirtos_Queue_Create buf es cap = some q0) :
    q0.buffer = buf ∧ q0.elementSize = es ∧ q0.head = 0 ∧ q0.tail = 0
    ∧ q0.count = 0 ∧ 0 < q0.maxElements ∧ 0 < es := by
  simp only [minirtos_Queue_Create] at hc
  split at hc
  · exact absurd hc (by simp)
  · next hguard =>
    push_neg at hguard
    cases hc
    refine ⟨rfl, rfl, rfl, rfl, rfl, ?_, ?_⟩
    · show 0 < if cap > MAX_NO_OF_QUEUE_ELEMENTS then MAX_NO_OF_QUEUE_ELEMENTS else cap
      split
      · simp [MAX_NO_OF_QUEUE_ELEMENTS]
      · omega
    · omega

/-- Claim C3 as amended: for every queue created with element size s and
capacity c whose caller buffer has the contracted s * c bytes, PROVIDED
every slot byte offset fits the 16-bit index used by the code
((c - 1) * s < 65536), any n ≤ c sends of full s-byte elements all
succeed and the following n receives succeed and deliver exactly those
elements, in order, bit-identical. -/
theorem C3_fifo_roundtrip (buf : List Nat) (es cap : Nat) (q0 : Queue_Descriptor_t)
    (hc : minirtos_Queue_Create buf es cap = some q0)
    (hlen : buf.length = es * q0.maxElements)
    (hidx : (q0.maxElements - 1) * es < UINT16_MOD)
    (msgs : List (List Nat)) (hm : ∀ m ∈ msgs, m.length = es)
    (hn : msgs.length ≤ q0.maxElements) :
    ∃ q1, sendAll q0 msgs = some q1 ∧ recvAll q1 msgs.length = some msgs := by
  obtain ⟨hbuf, hes, hhead, htail, hcnt, hmax, hespos⟩ := create_spec buf es cap q0 hc
  have hwf : QWF q0 := by
    refine ⟨?_, ?_, ?_, ?_, ?_, hmax, ?_⟩
    · rw [hbuf, hlen, hes]
    · rw [hhead]; exact hmax
    · rw [htail, hhead, hcnt]; simp
    · rw [hcnt]; exact Nat.zero_le _
    · rw [hes]; exact hespos
    · rw [hes]; exact hidx
  have hc0 : contents q0 = [] := by
    simp [contents, hcnt]
  obtain ⟨q1, hall, hwf1, hcont1, hes1⟩ :=
    sendAll_spec msgs q0 hwf (by rw [hes]; exact hm) (by rw [hcnt]; simpa using hn)
  refine ⟨q1, hall, ?_⟩
  have : contents q1 = msgs := by rw [hcont1, hc0]; simp
  exact recvAll_spec msgs q1 hwf1 this

/-- Witness for the amended claim C3 at a concrete queue (element size 1,
capacity 2) and two concrete elements. -/
theorem C3_fifo_roundtrip_witness :
    ∃ q1, sendAll c2q0 [[3], [4]] = some q1 ∧ recvAll q1 2 = some [[3], [4]] :=
  C3_fifo_roundtrip [0, 0] 1 2 c2q0 rfl (by decide) (by decide)
    [[3], [4]] (by decide) (by decide)

lemma cx_create : minirtos_Queue_Create (List.replicate 98304 0) 32768 3 = some cxQ0 :=
  rfl

lemma cx_send1 : minirtos_Queue_Send cxQ0 (List.replicate 32768 1) = (true, cxQ1) := by
  rw [send_success_eq _ _ (by decide)]
  simp [-List.reduceReplicate, cxQ0, cxQ1, memcpy, UINT16_MOD]

lemma cx_send2 : minirtos_Queue_Send cxQ1 (List.replicate 32768 2) = (true, cxQ2) := by
  rw [send_success_eq _ _ (by decide)]
  simp [-List.reduceReplicate, cxQ1, cxQ2, memcpy, UINT16_MOD,
        List.take_append_eq_append_take, List.drop_append_eq_append_drop]

lemma cx_send3 : minirtos_Queue_Send cxQ2 (List.replicate 32768 3) = (true, cxQ3) := by
  rw [send_success_eq _ _ (by decide)]
  simp [-List.reduceReplicate, cxQ2, cxQ3, memcpy, UINT16_MOD,
        List.take_append_eq_append_take, List.drop_append_eq_append_drop]

lemma cx_recv :
    (minirtos_Queue_Receive cxQ3 (List.replicate 32768 0)).2.2 = List.replicate 32768 3
    ∧ (minirtos_Queue_Receive cxQ3 (List.replicate 32768 0)).1 = true := by
  rw [recv_success_eq _ _ (by decide)]
  constructor
  · show memcpy (List.replicate 32768 0) 0
        (cxQ3.buffer.drop (cxQ3.head * cxQ3.elementSize % UINT16_MOD)) cxQ3.elementSize
      = List.replicate 32768 3
    simp [-List.reduceReplicate, cxQ3, memcpy, UINT16_MOD,
          List.take_append_eq_append_take]
  · rfl

lemma cx_ne : List.replicate 32768 3 ≠ (List.replicate 32768 1 : List Nat) := by
  intro h
  have h0 := congrArg (fun l => l[0]?) h
  simp only [List.getElem?_replicate_of_lt (by norm_num : (0 : Nat) < 32768)] at h0
  exact absurd (Option.some.inj h0) (by norm_num)

/-- Counterexample to claim C3 as universally stated: for the queue created
with element size 32768 and capacity 3 over its contracted 98304-byte
buffer, the three sends of the all-1, all-2 and all-3 elements succeed with
no intervening receive, yet the first following receive succeeds and
delivers the all-3 element instead of the all-1 element: the uint16_t
write offset of slot 2 truncates from 65536 to 0 and the third send
overwrites the first element. -/
theorem C3_fifo_counterexample :
    minirtos_Queue_Create (List.replicate 98304 0) 32768 3 = some cxQ0
    ∧ minirtos_Queue_Send cxQ0 (List.replicate 32768 1) = (true, cxQ1)
    ∧ minirtos_Queue_Send cxQ1 (List.replicate 32768 2) = (true, cxQ2)
    ∧ minirtos_Queue_Send cxQ2 (List.replicate 32768 3) = (true, cxQ3)
    ∧ (minirtos_Queue_Receive cxQ3 (List.replicate 32768 0)).1 = true
    ∧ (minirtos_Queue_Receive cxQ3 (List.replicate 32768 0)).2.2 ≠ List.replicate 32768 1 :=
  ⟨cx_create, cx_send1, cx_send2, cx_send3, cx_recv.2, by rw [cx_recv.1]; exact cx_ne⟩

/-- Claim C10 as amended.  Send half, under its proviso: when every slot
byte offset fits the 16-bit index used by the code
((capacity - 1) * element_size < 65536), the buffer has its contracted
element_size * capacity bytes, tail is in range and the source holds a
full element, a successful Send changes only the tail index, the count and
the element slot at the old tail — head, element size, capacity, buffer
length and every other slot are unchanged.  Receive half, unconditionally
(for every queue state, including those outside the Send proviso): a
successful Receive changes only the head index and the count — buffer
bytes, tail and the configuration fields are unchanged. -/
theorem C10_frame_amended (q : Queue_Descriptor_t) (m d : List Nat) :
    (q.buffer.length = q.elementSize * q.maxElements →
      q.tail < q.maxElements →
      (q.maxElements - 1) * q.elementSize < UINT16_MOD →
      q.elementSize ≤ m.length →
      q.count ≠ q.maxElements →
      (minirtos_Queue_Send q m).1 = true
      ∧ (minirtos_Queue_Send q m).2.head = q.head
      ∧ (minirtos_Queue_Send q m).2.elementSize = q.elementSize
      ∧ (minirtos_Queue_Send q m).2.maxElements = q.maxElements
      ∧ (minirtos_Queue_Send q m).2.buffer.length = q.buffer.length
      ∧ (minirtos_Queue_Send q m).2.tail = (q.tail + 1) % q.maxElements
      ∧ (minirtos_Queue_Send q m).2.count = q.count + 1
      ∧ ∀ j, j < q.maxElements → j ≠ q.tail →
          slotAt (minirtos_Queue_Send q m).2 j = slotAt q j)
    ∧ (q.count ≠ 0 →
      (minirtos_Queue_Receive q d).1 = true
      ∧ (minirtos_Queue_Receive q d).2.1.buffer = q.buffer
      ∧ (minirtos_Queue_Receive q d).2.1.tail = q.tail
      ∧ (minirtos_Queue_Receive q d).2.1.elementSize = q.elementSize
      ∧ (minirtos_Queue_Receive q d).2.1.maxElements = q.maxElements
      ∧ (minirtos_Queue_Receive q d).2.1.head = (q.head + 1) % q.maxElements
      ∧ (minirtos_Queue_Receive q d).2.1.count = q.count - 1) := by
  constructor
  · intro hlen htl hidx hm hne
    have hoff := slot_offset_lt htl hidx
    have hbound := slot_offset_bound htl hlen
    rw [send_success_eq q m hne, hoff]
    refine ⟨rfl, rfl, rfl, rfl, ?_, rfl, rfl, ?_⟩
    · show (memcpy q.buffer (q.tail * q.elementSize) m q.elementSize).length
        = q.buffer.length
      exact length_memcpy _ _ _ _ hbound hm
    · intro j hj hjne
      show slice (memcpy q.buffer (q.tail * q.elementSize) m q.elementSize)
          (j * q.elementSize) q.elementSize = slotAt q j
      rw [slice_memcpy_disjoint _ _ _ _ _ _ hbound hm (slots_disjoint hjne)]
      rfl
  · intro hne
    rw [recv_success_eq q d hne]
    exact ⟨rfl, rfl, rfl, rfl, rfl, rfl, rfl⟩

/-- Witness for the amended claim C10 at the concrete queue c10q (element
size 1, capacity 2, one stored element): the successful Send leaves head
and the other slot unchanged, the successful Receive leaves buffer and
tail unchanged.  The last two conjuncts exercise the unconditional Receive
half on cxQ3, a queue whose geometry violates the Send proviso. -/
theorem C10_frame_amended_witness :
    (minirtos_Queue_Send c10q [9]).1 = true
    ∧ (minirtos_Queue_Send c10q [9]).2.head = c10q.head
    ∧ slotAt (minirtos_Queue_Send c10q [9]).2 0 = slotAt c10q 0
    ∧ (minirtos_Queue_Receive c10q [0]).1 = true
    ∧ (minirtos_Queue_Receive c10q [0]).2.1.buffer = c10q.buffer
    ∧ (minirtos_Queue_Receive c10q [0]).2.1.tail = c10q.tail
    ∧ (minirtos_Queue_Receive cxQ3 (List.replicate 32768 0)).2.1.buffer = cxQ3.buffer
    ∧ (minirtos_Queue_Receive cxQ3 (List.replicate 32768 0)).2.1.tail = cxQ3.tail := by
  have h := C10_frame_amended c10q [9] [0]
  have hs := h.1 (by decide) (by decide) (by decide) (by decide) (by decide)
  have hr := h.2 (by decide)
  have hr3 := (C10_frame_amended cxQ3 [] (List.replicate 32768 0)).2 (by decide)
  exact ⟨hs.1, hs.2.1, hs.2.2.2.2.2.2.2 0 (by decide) (by decide), hr.1, hr.2.1, hr.2.2.1,
         hr3.2.1, hr3.2.2.1⟩

/-- Counterexample to claim C10 as universally stated: in the queue cxQ2
(element size 32768, capacity 3, the all-1 and all-2 elements stored), the
successful Send of the all-3 element — nominally into the slot at the old
tail 2 — overwrites the previously stored first element: slot 0 changes
from all-1 to all-3, because the uint16_t write offset truncates 65536
to 0. -/
theorem C10_frame_counterexample :
    minirtos_Queue_Send cxQ2 (List.replicate 32768 3) = (true, cxQ3)
    ∧ cxQ2.tail = 2
    ∧ slotAt cxQ2 0 = List.replicate 32768 1
    ∧ slotAt cxQ3 0 = List.replicate 32768 3
    ∧ slotAt cxQ3 0 ≠ slotAt cxQ2 0 := by
  have h1 : slotAt cxQ2 0 = List.replicate 32768 1 := by
    simp [-List.reduceReplicate, cxQ2, slotAt, slice, List.take_append_eq_append_take]
  have h2 : slotAt cxQ3 0 = List.replicate 32768 3 := by
    simp [-List.reduceReplicate, cxQ3, slotAt, slice, List.take_append_eq_append_take]
  exact ⟨cx_send3, rfl, h1, h2, by rw [h1, h2]; exact cx_ne⟩

end MiniRTOS
